import Mathlib

/-!
Shallow embedding of src/src/CGALRenderer.cc (OpenSCAD CGAL renderer).

The renderer state (retained polygon sets, retained Nef polyhedra, the lazy
polyhedron cache, the segment list and the colormap) is a Lean structure;
every member function becomes a pure state transformer.  The global feature
flag Feature ExperimentalVxORenderers is passed explicitly as a Bool to every
operation that reads it.  OpenGL calls are modelled as an explicit command
trace plus a small OpenGL state record folded over that trace.  External
collaborators that are not part of this translation unit (tessellation,
colormap lookup, bounding boxes of kernel objects) are fields of a Kernel
parameter record; base class helpers that are called but not defined in this
file are modelled from the spec and marked as such in their doc comments.
-/

namespace CGALSpec

/-- A 3D point with exact integer coordinates, standing in for Vector3d. -/
abbrev Vec3 := Int × Int × Int

/-- PolySet: dimension tag, convexity, convex hint (a tribool in the source,
modelled as Option Bool) and the list of polygons, each an ordered point list. -/
structure PolySet where
  dim : Nat
  convexity : Int
  convexVal : Option Bool
  polygons : List (List Vec3)
deriving DecidableEq

/-- Polygon2d is opaque to this file apart from being tessellated. -/
structure Polygon2d where
  pid : Nat
deriving DecidableEq

/-- CGAL_Nef_polyhedron, opaque apart from the queries the renderer makes:
dimension and emptiness.  The nid field keeps distinct instances distinct. -/
structure Nef where
  nid : Nat
  dim : Nat
  isEmpty : Bool
deriving DecidableEq

/-- The closed set of Geometry variants the downcast chain in addGeometry
distinguishes.  A GeometryList child pair carries an unused key (the source
iterates getChildren() and only ever reads item.second).  The unknown
constructor stands for any other Geometry subclass, which falls through
every dynamic cast and is silently ignored. -/
inductive Geometry where
  | glist (children : List (Nat × Geometry))
  | polySet (ps : PolySet)
  | polygon2d (p : Polygon2d)
  | nef (n : Nef)
  | unknown

/-- Colors are opaque values from the external colormap. -/
abbrev Color := Nat

/-- Color schemes are opaque identifiers. -/
abbrev ColorScheme := Nat

/-- The two RenderColors named entries this file reads from ColorMap. -/
inductive RenderColor where
  | face2d
  | edge2d
deriving DecidableEq

/-- ColorMode keys of the renderer colormap.  Besides the three modes this
file uses, two further modes stand for the rest of the enum so that the
claim that exactly two entries are updated has content. -/
inductive ColorMode where
  | material
  | cgalFace2d
  | cgalEdge2d
  | background
  | highlight
deriving DecidableEq

/-- Axis-aligned box with concrete corner coordinates (CGAL Bbox_3 or a
non-degenerate Eigen AlignedBox). -/
structure Box3 where
  xmin : Int
  ymin : Int
  zmin : Int
  xmax : Int
  ymax : Int
  zmax : Int
deriving DecidableEq

/-- Eigen BoundingBox: a default constructed box is empty (sentinel corners),
modelled as none; extending never produces the sentinel again unless both
sides are empty. -/
abbrev BBox := Option Box3

/-- CGAL_OGL_Polyhedron as the cache stores it: which of the two construction
strategies was used (vboKind true means CGAL_OGL_VBOPolyhedron), the color
scheme snapshot passed to the constructor, and the source Nef polyhedron fed
through the Nef3 converter. -/
structure OGLPolyhedron where
  vboKind : Bool
  scheme : ColorScheme
  source : Nef
deriving DecidableEq

/-- The two styles passed to set_style in the draw loop. -/
inductive PolyStyle where
  | sncBoundary
  | sncSkeleton
deriving DecidableEq

/-- The three client attribute arrays whose enablement draw snapshots. -/
inductive ClientArray where
  | vertexArr
  | normalArr
  | colorArr
deriving DecidableEq

/-- One OpenGL-level command of the draw trace.  Immediate-mode drawing in
the legacy path is kept at the granularity the source uses (glBegin, the
vertex loop, glEnd); calls into base class drawing helpers and into the
cached polyhedra are single commands carrying their arguments. -/
inductive GLCmd where
  | disableLighting
  | enableDepthTest
  | disableDepthTest
  | setLineWidth (w : Int)
  | setPointSize (v : Int)
  | setColor (c : Color)
  | beginPolygon
  | vertex3 (x y z : Int)
  | endPolygon
  | renderEdges2D (ps : PolySet)
  | renderSurface3D (ps : PolySet)
  | enableClient (a : ClientArray)
  | disableClient (a : ClientArray)
  | bindBuffer (n : Nat)
  | drawFace2D (c : Color) (ps : PolySet)
  | drawEdge2D (c : Color) (ps : PolySet)
  | drawSurface3D (c : Color) (ps : PolySet)
  | drawPolyhedron (style : PolyStyle) (edgesAndFaces : Bool)
deriving DecidableEq

/-- What a segment draws.  Modelled from the spec: create_polygons,
create_edges and create_surface (base class helpers, not in this file) each
append one segment carrying the vertex data of one polygon set together with
the color baked into the interleaved buffer. -/
inductive SegKind where
  | stateOnly
  | face2d (c : Color) (ps : PolySet)
  | edge2d (c : Color) (ps : PolySet)
  | surf3d (c : Color) (ps : PolySet)
deriving DecidableEq

/-- VertexState: the pre-draw action list (glBegin), the post-draw action
list (glEnd) and the vertex data drawn in between. -/
structure VertexState where
  beginActs : List GLCmd
  endActs : List GLCmd
  kind : SegKind
deriving DecidableEq

/-- The OpenGL state items the claims talk about: lighting, depth test,
line width, point size, the three client array flags, the bound buffer and
the current color. -/
structure GLState where
  lighting : Bool
  depthTest : Bool
  lineW : Int
  pointS : Int
  clVertex : Bool
  clNormal : Bool
  clColor : Bool
  bound : Nat
  curColor : Color
deriving DecidableEq

/-- The CGALRenderer state: the fields of the class in declaration order,
plus the colorscheme pointer and colormap inherited from Renderer. -/
structure Renderer where
  polysets : List PolySet
  nefPolyhedrons : List Nef
  polyhedrons : List OGLPolyhedron
  last_render_state : Bool
  polyset_states : List VertexState
  polyset_vbo : Nat
  colorscheme : ColorScheme
  colormap : ColorMode → Option Color

/-- External collaborators of this translation unit, kept abstract:
tessellate_faces (via the wrapper building the triangulated PolySet),
Polygon2d tessellate, PolySet getBoundingBox, the bbox of a built OGL
polyhedron, and ColorMap getColor. -/
structure Kernel where
  tessFaces : PolySet → List (List Vec3)
  tess2d : Polygon2d → PolySet
  psBound : PolySet → BBox
  oglBound : OGLPolyhedron → Box3
  getColor : ColorScheme → RenderColor → Color

/-- List concatenation of the images of f, in order. -/
def concatMap (f : α → List β) : List α → List β
  | [] => []
  | a :: as => f a ++ concatMap f as

/-- The tessellated copy addGeometry builds for a 3D PolySet: a new PolySet
with dimension 3 and the convex hint of the source, convexity copied over,
and faces filled in by PolysetUtils tessellate_faces. -/
def tessPS (K : Kernel) (ps : PolySet) : PolySet :=
  { dim := 3, convexity := ps.convexity, convexVal := ps.convexVal,
    polygons := K.tessFaces ps }

mutual

/-- CGALRenderer addGeometry: recurse through GeometryList children, retain
a tessellated copy of a PolySet, retain the tessellation of a Polygon2d,
retain a non-empty Nef polyhedron, ignore anything else.  The dimension
asserts of the source are compiled out (release semantics). -/
def addGeometry (K : Kernel) (g : Geometry) (r : Renderer) : Renderer :=
  match g with
  | .glist cs => addGeometryList K cs r
  | .polySet ps => { r with polysets := r.polysets ++ [tessPS K ps] }
  | .polygon2d p => { r with polysets := r.polysets ++ [K.tess2d p] }
  | .nef n =>
      if n.isEmpty then r
      else { r with nefPolyhedrons := r.nefPolyhedrons ++ [n] }
  | .unknown => r
termination_by sizeOf g

/-- The child loop of addGeometry over getChildren(). -/
def addGeometryList (K : Kernel) (cs : List (Nat × Geometry)) (r : Renderer) :
    Renderer :=
  match cs with
  | [] => r
  | (_, g2) :: rest => addGeometryList K rest (addGeometry K g2 r)
termination_by sizeOf cs

end

/-- The CGALRenderer constructor: last_render_state is initialized from the
current value of the feature flag, polyset_vbo from 0, and the geometry
argument is classified by addGeometry.  The inherited colorscheme and
colormap start from the given values. -/
def mkRenderer (K : Kernel) (flag : Bool) (cs0 : ColorScheme)
    (cm0 : ColorMode → Option Color) (g : Geometry) : Renderer :=
  addGeometry K g
    { polysets := [], nefPolyhedrons := [], polyhedrons := [],
      last_render_state := flag, polyset_states := [], polyset_vbo := 0,
      colorscheme := cs0, colormap := cm0 }

/-- One cache entry as buildPolyhedrons constructs it: the branch on the
feature flag picks the class, and the current colorscheme is passed to the
constructor. -/
def mkOGL (flag : Bool) (cs : ColorScheme) (n : Nef) : OGLPolyhedron :=
  { vboKind := flag, scheme := cs, source := n }

/-- CGALRenderer buildPolyhedrons: clear the cache and fill it with one
drawable polyhedron per retained Nef, built under the current flag and the
current colorscheme.  Note that last_render_state is not touched here. -/
def buildPolyhedrons (flag : Bool) (r : Renderer) : Renderer :=
  { r with polyhedrons := r.nefPolyhedrons.map (mkOGL flag r.colorscheme) }

/-- The rebuild condition of getPolyhedrons, exactly as written in the
source. -/
def rebuildCond (flag : Bool) (r : Renderer) : Bool :=
  !r.nefPolyhedrons.isEmpty &&
    (r.polyhedrons.isEmpty || flag != r.last_render_state)

/-- CGALRenderer getPolyhedrons: rebuild when the condition holds, then
return the cache.  The Bool result records whether buildPolyhedrons ran. -/
def getPolyhedrons (flag : Bool) (r : Renderer) : Renderer × Bool :=
  if rebuildCond flag r then (buildPolyhedrons flag r, true) else (r, false)

/-- Pointwise update of the colormap at one key (std map operator[]). -/
def updateMap (m : ColorMode → Option Color) (k : ColorMode) (v : Color) :
    ColorMode → Option Color :=
  fun x => if x = k then some v else m x

/-- CGALRenderer setColorScheme: first the base class call (modelled from
the spec: Renderer setColorScheme records the scheme it was given; the base
class body is not part of this file), then the two colormap entries for the
2D face and 2D edge colors are written, then the cache is cleared. -/
def setColorScheme (K : Kernel) (cs : ColorScheme) (r : Renderer) : Renderer :=
  let r1 := { r with colorscheme := cs }
  let cm1 := updateMap r1.colormap .cgalFace2d (K.getColor cs .face2d)
  let cm2 := updateMap cm1 .cgalEdge2d (K.getColor cs .edge2d)
  { r1 with colormap := cm2, polyhedrons := [] }

/-- Renderer getColor, modelled from the spec: a lookup in the colormap
(the source leaves the output unchanged when the key is missing; a fixed
default stands for that uninitialized value). -/
def colorOf (r : Renderer) (m : ColorMode) : Color :=
  (r.colormap m).getD 0

/-- The five segments createPolysets emits for one 2D polygon set, or the
single surface segment for a 3D one: an initial state whose post-draw action
disables lighting, the face segment from create_polygons under the 2D face
color, a state whose pre-draw actions disable the depth test and set line
width 2, the edge segment from create_edges under the 2D edge color, and a
closing state whose pre-draw action re-enables the depth test. -/
def psSegStates (r : Renderer) (ps : PolySet) : List VertexState :=
  if ps.dim == 2 then
    [ { beginActs := [], endActs := [.disableLighting], kind := .stateOnly },
      { beginActs := [], endActs := [],
        kind := .face2d (colorOf r .cgalFace2d) ps },
      { beginActs := [.disableDepthTest, .setLineWidth 2], endActs := [],
        kind := .stateOnly },
      { beginActs := [], endActs := [],
        kind := .edge2d (colorOf r .cgalEdge2d) ps },
      { beginActs := [.enableDepthTest], endActs := [], kind := .stateOnly } ]
  else
    [ { beginActs := [], endActs := [],
        kind := .surf3d (colorOf r .material) ps } ]

/-- CGALRenderer createPolysets: clear polyset_states, then walk the
retained polygon sets in order emitting their segments, and if at least one
polygon set exists generate a buffer name (supplied here as newBuf, since
glGenBuffers is external) and build the interleaved VBO. -/
def createPolysets (newBuf : Nat) (r : Renderer) : Renderer :=
  { r with
    polyset_states := concatMap (psSegStates r) r.polysets,
    polyset_vbo := if r.polysets.length ≠ 0 then newBuf else r.polyset_vbo }

/-- The draw commands of one segment.  Modelled from the spec: drawArrays
runs the pre-draw actions, enables the client arrays of the segment layout
(position and color on the 2D page, position, normal and color on the 3D
page), issues the draw, and runs the post-draw actions. -/
def segDrawCmds : SegKind → List GLCmd
  | .stateOnly => []
  | .face2d c ps =>
      [.enableClient .vertexArr, .enableClient .colorArr, .drawFace2D c ps]
  | .edge2d c ps =>
      [.enableClient .vertexArr, .enableClient .colorArr, .drawEdge2D c ps]
  | .surf3d c ps =>
      [.enableClient .vertexArr, .enableClient .normalArr,
       .enableClient .colorArr, .drawSurface3D c ps]

/-- The full command trace of drawing one segment. -/
def vsTrace (v : VertexState) : List GLCmd :=
  v.beginActs ++ segDrawCmds v.kind ++ v.endActs

/-- The immediate-mode face loop of the legacy path: one glBegin GL_POLYGON,
the glVertex3d calls with z forced to 0, and one glEnd per polygon. -/
def legacyFaceLoop (ps : PolySet) : List GLCmd :=
  concatMap
    (fun poly =>
      [GLCmd.beginPolygon] ++
        poly.map (fun p => GLCmd.vertex3 p.1 p.2.1 0) ++ [GLCmd.endPolygon])
    ps.polygons

/-- The legacy path trace for one retained polygon set: the 2D branch
disables lighting, sets the 2D face color, draws the faces, disables the
depth test, sets line width 2, sets the 2D edge color, renders the edges and
re-enables the depth test; the 3D branch sets the material color and renders
the surface. -/
def legacyPolysetTrace (r : Renderer) (ps : PolySet) : List GLCmd :=
  if ps.dim == 2 then
    [.disableLighting, .setColor (colorOf r .cgalFace2d)] ++
      legacyFaceLoop ps ++
      [.disableDepthTest, .setLineWidth 2,
       .setColor (colorOf r .cgalEdge2d), .renderEdges2D ps,
       .enableDepthTest]
  else
    [.setColor (colorOf r .material), .renderSurface3D ps]

/-- The whole legacy polygon-set pass. -/
def legacyTrace (r : Renderer) : List GLCmd :=
  concatMap (legacyPolysetTrace r) r.polysets

/-- The restore commands the buffered path issues after unbinding the
buffer, computed from the snapshot taken before the segment pass: point
size, line width, then a disable for each client array that was disabled in
the snapshot (arrays enabled in the snapshot are left as the segments left
them). -/
def restoreCmds (s : GLState) : List GLCmd :=
  [.setPointSize s.pointS, .setLineWidth s.lineW] ++
    (if s.clVertex then [] else [GLCmd.disableClient .vertexArr]) ++
    (if s.clNormal then [] else [GLCmd.disableClient .normalArr]) ++
    (if s.clColor then [] else [GLCmd.disableClient .colorArr])

/-- The renderer after the lazy segment build at the top of the buffered
path: createPolysets runs only when the segment list is empty. -/
def bufferedRenderer (newBuf : Nat) (r : Renderer) : Renderer :=
  if r.polyset_states.isEmpty then createPolysets newBuf r else r

/-- The buffered path trace: bind the VBO, draw every segment in order,
unbind, then restore the snapshotted state. -/
def bufferedTrace (newBuf : Nat) (r : Renderer) (s : GLState) : List GLCmd :=
  [GLCmd.bindBuffer (bufferedRenderer newBuf r).polyset_vbo] ++
    concatMap vsTrace (bufferedRenderer newBuf r).polyset_states ++
    [GLCmd.bindBuffer 0] ++ restoreCmds s

/-- The polyhedron pass: every cached polyhedron is drawn after set_style
SNC_BOUNDARY when showfaces holds and SNC_SKELETON otherwise, with
edges-and-faces mode passed exactly when showfaces and showedges both
hold. -/
def polyhedronTrace (sf se : Bool) (cache : List OGLPolyhedron) : List GLCmd :=
  cache.map (fun _ =>
    GLCmd.drawPolyhedron (if sf then .sncBoundary else .sncSkeleton) (sf && se))

/-- CGALRenderer draw: the legacy or buffered polygon-set pass depending on
the flag, then the loop over getPolyhedrons, which draws each cached
polyhedron and (once per iteration, hence whenever the cache is non-empty)
overwrites last_render_state with the current flag value.  The GLState
argument is the live OpenGL state at entry, read by the buffered snapshot;
newBuf supplies the externally generated buffer name. -/
def draw (flag sf se : Bool) (newBuf : Nat) (r : Renderer) (s : GLState) :
    Renderer × List GLCmd :=
  let r1 := if flag then bufferedRenderer newBuf r else r
  let preTrace := if flag then bufferedTrace newBuf r s else legacyTrace r
  let r2 := (getPolyhedrons flag r1).1
  let r3 :=
    if r2.polyhedrons.isEmpty then r2
    else { r2 with last_render_state := flag }
  (r3, preTrace ++ polyhedronTrace sf se r2.polyhedrons)

/-- Arguments of one draw call in a call sequence: the flag value read
during that call, the two style switches, the fresh buffer name and the live
OpenGL state. -/
structure DrawArgs where
  flag : Bool
  sf : Bool
  se : Bool
  nb : Nat
  s : GLState

/-- The renderer after one draw call. -/
def drawStep (r : Renderer) (a : DrawArgs) : Renderer :=
  (draw a.flag a.sf a.se a.nb r a.s).1

/-- The renderer after a whole sequence of draw calls. -/
def drawSeqFold (calls : List DrawArgs) (r : Renderer) : Renderer :=
  calls.foldl drawStep r

/-- Effect of one command on the tracked OpenGL state; pure draw commands
(including the external polyhedron draw and edge rendering helpers) leave
the tracked items unchanged. -/
def applyCmd (s : GLState) (c : GLCmd) : GLState :=
  match c with
  | .disableLighting => { s with lighting := false }
  | .enableDepthTest => { s with depthTest := true }
  | .disableDepthTest => { s with depthTest := false }
  | .setLineWidth w => { s with lineW := w }
  | .setPointSize v => { s with pointS := v }
  | .setColor c2 => { s with curColor := c2 }
  | .enableClient .vertexArr => { s with clVertex := true }
  | .enableClient .normalArr => { s with clNormal := true }
  | .enableClient .colorArr => { s with clColor := true }
  | .disableClient .vertexArr => { s with clVertex := false }
  | .disableClient .normalArr => { s with clNormal := false }
  | .disableClient .colorArr => { s with clColor := false }
  | .bindBuffer n => { s with bound := n }
  | _ => s

/-- Folding a command trace over an OpenGL state. -/
def applyTrace (s : GLState) (cmds : List GLCmd) : GLState :=
  cmds.foldl applyCmd s

/-- Eigen extend on possibly-empty boxes: extending by an empty box is the
identity, extending an empty box yields the other box, and otherwise the
corners combine by componentwise min and max. -/
def extendBB (a b : BBox) : BBox :=
  match a, b with
  | a, none => a
  | none, some bb => some bb
  | some aa, some bb =>
      some { xmin := min aa.xmin bb.xmin, ymin := min aa.ymin bb.ymin,
             zmin := min aa.zmin bb.zmin, xmax := max aa.xmax bb.xmax,
             ymax := max aa.ymax bb.ymax, zmax := max aa.zmax bb.zmax }

/-- The union of a list of boxes, starting from the empty box. -/
def unionBBoxes (l : List BBox) : BBox :=
  l.foldl extendBB none

/-- CGALRenderer getBoundingBox: start from a default (empty) box, extend by
the bbox of every polyhedron returned by getPolyhedrons (which may rebuild
the cache), then extend by the bounding box of every retained polygon
set. -/
def getBoundingBox (K : Kernel) (flag : Bool) (r : Renderer) : BBox :=
  let cache := (getPolyhedrons flag r).1.polyhedrons
  let b1 := cache.foldl (fun b p => extendBB b (some (K.oglBound p))) none
  r.polysets.foldl (fun b ps => extendBB b (K.psBound ps)) b1

mutual

/-- Modelled from the spec: the flattened, depth-first list of leaf polygon
sets reachable from a geometry, each tessellated as retention tessellates
it. -/
def flatPolysets (K : Kernel) (g : Geometry) : List PolySet :=
  match g with
  | .glist cs => flatPolysetsL K cs
  | .polySet ps => [tessPS K ps]
  | .polygon2d p => [K.tess2d p]
  | .nef _ => []
  | .unknown => []
termination_by sizeOf g

/-- Flattened polygon sets of a child list, in child order. -/
def flatPolysetsL (K : Kernel) (cs : List (Nat × Geometry)) : List PolySet :=
  match cs with
  | [] => []
  | (_, g2) :: rest => flatPolysets K g2 ++ flatPolysetsL K rest
termination_by sizeOf cs

end

mutual

/-- Modelled from the spec: the flattened, depth-first list of non-empty
boundary polyhedra reachable from a geometry. -/
def flatNefs (g : Geometry) : List Nef :=
  match g with
  | .glist cs => flatNefsL cs
  | .nef n => if n.isEmpty then [] else [n]
  | _ => []
termination_by sizeOf g

/-- Flattened non-empty polyhedra of a child list, in child order. -/
def flatNefsL (cs : List (Nat × Geometry)) : List Nef :=
  match cs with
  | [] => []
  | (_, g2) :: rest => flatNefs g2 ++ flatNefsL rest
termination_by sizeOf cs

end

/-- Commands a segment may contain without breaking the buffered-path
restore: anything except a point size write or a client array disable. -/
def cmdSegSafe : GLCmd → Bool
  | .setPointSize _ => false
  | .disableClient _ => false
  | _ => true

/-- A segment whose action lists contain only restore-safe commands. -/
def vsOK (v : VertexState) : Bool :=
  v.beginActs.all cmdSegSafe && v.endActs.all cmdSegSafe

/-- A segment list is well formed when every segment is. -/
def segStatesOK (sts : List VertexState) : Bool :=
  sts.all vsOK

/-- Face-loop commands of the legacy 2D face pass. -/
def isFaceCmd : GLCmd → Bool
  | .beginPolygon => true
  | .vertex3 _ _ _ => true
  | .endPolygon => true
  | _ => false

/-- A concrete instantiation of the external collaborators, used to
evaluate theorems at closed inputs. -/
def Ktriv : Kernel :=
  { tessFaces := fun ps => ps.polygons,
    tess2d := fun _ => { dim := 2, convexity := 1, convexVal := none,
                         polygons := [] },
    psBound := fun ps =>
      match ps.polygons with
      | [] => none
      | _ => some { xmin := 0, ymin := 0, zmin := 0,
                    xmax := 1, ymax := 1, zmax := 1 },
    oglBound := fun _ => { xmin := -1, ymin := -1, zmin := -1,
                           xmax := 2, ymax := 2, zmax := 2 },
    getColor := fun cs rc =>
      10 * cs + (match rc with | .face2d => 1 | .edge2d => 2) }

/-- A concrete non-empty Nef polyhedron. -/
def nefEx : Nef := { nid := 0, dim := 3, isEmpty := false }

/-- A concrete colormap with entries for the three modes the file reads. -/
def cmEx : ColorMode → Option Color :=
  fun m =>
    match m with
    | .cgalFace2d => some 7
    | .cgalEdge2d => some 8
    | .material => some 9
    | _ => none

/-- A concrete renderer holding one retained Nef polyhedron, an empty cache
and last_render_state false: the state of a renderer constructed from one
non-empty boundary polyhedron while the feature flag was off. -/
def rEx : Renderer :=
  { polysets := [], nefPolyhedrons := [nefEx], polyhedrons := [],
    last_render_state := false, polyset_states := [], polyset_vbo := 0,
    colorscheme := 3, colormap := cmEx }

/-- A concrete convex 2D square polygon set. -/
def psSquare : PolySet :=
  { dim := 2, convexity := 1, convexVal := some true,
    polygons := [[(0, 0, 0), (1, 0, 0), (1, 1, 0), (0, 1, 0)]] }

/-- A concrete 3D polygon set. -/
def psCube : PolySet :=
  { dim := 3, convexity := 1, convexVal := some true,
    polygons := [[(0, 0, 0), (1, 0, 0), (1, 1, 1)]] }

/-- A renderer retaining exactly the square, with no polyhedra. -/
def rSquare : Renderer :=
  { polysets := [psSquare], nefPolyhedrons := [], polyhedrons := [],
    last_render_state := false, polyset_states := [], polyset_vbo := 0,
    colorscheme := 3, colormap := cmEx }

/-- A renderer retaining exactly one 3D polygon set, with no polyhedra. -/
def rCube : Renderer :=
  { polysets := [psCube], nefPolyhedrons := [], polyhedrons := [],
    last_render_state := false, polyset_states := [], polyset_vbo := 0,
    colorscheme := 3, colormap := cmEx }

/-- A renderer retaining nothing at all. -/
def rEmpty : Renderer :=
  { polysets := [], nefPolyhedrons := [], polyhedrons := [],
    last_render_state := false, polyset_states := [], polyset_vbo := 0,
    colorscheme := 3, colormap := cmEx }

/-- A concrete OpenGL state with every tracked item set. -/
def sEx : GLState :=
  { lighting := true, depthTest := true, lineW := 5, pointS := 4,
    clVertex := true, clNormal := false, clColor := true, bound := 9,
    curColor := 1 }

/-- The renderer rEx with its cache already built under flag false: the
state after a draw call with the feature flag off. -/
def rExCached : Renderer :=
  { rEx with polyhedrons := [mkOGL false 3 nefEx] }

/-- A nested composite geometry: a 3D polygon set, a sublist holding a 2D
polygon and a non-empty polyhedron, an empty polyhedron and an unknown
variant. -/
def gEx : Geometry :=
  .glist
    [(0, .polySet psCube),
     (1, .glist [(0, .polygon2d { pid := 5 }), (1, .nef nefEx)]),
     (2, .nef { nid := 1, dim := 3, isEmpty := true }),
     (3, .unknown)]

mutual

/-- Helper: addGeometry appends exactly the flattened leaf polygon sets and
non-empty polyhedra, in depth-first order, and touches no other field. -/
theorem addGeometry_spec (K : Kernel) (g : Geometry) (r : Renderer) :
    addGeometry K g r =
      { r with polysets := r.polysets ++ flatPolysets K g,
               nefPolyhedrons := r.nefPolyhedrons ++ flatNefs g } := by
  cases g with
  | glist cs =>
      simp [addGeometry, flatPolysets, flatNefs, addGeometryList_spec K cs r]
  | polySet ps => simp [addGeometry, flatPolysets, flatNefs]
  | polygon2d p => simp [addGeometry, flatPolysets, flatNefs]
  | nef n =>
      cases hE : n.isEmpty <;>
        simp [addGeometry, flatPolysets, flatNefs, hE]
  | unknown => simp [addGeometry, flatPolysets, flatNefs]
termination_by sizeOf g

/-- Helper: the child loop of addGeometry does the same, list-wise. -/
theorem addGeometryList_spec (K : Kernel) (cs : List (Nat × Geometry))
    (r : Renderer) :
    addGeometryList K cs r =
      { r with polysets := r.polysets ++ flatPolysetsL K cs,
               nefPolyhedrons := r.nefPolyhedrons ++ flatNefsL cs } := by
  match cs with
  | [] => simp [addGeometryList, flatPolysetsL, flatNefsL]
  | (k, g2) :: rest =>
      rw [show addGeometryList K ((k, g2) :: rest) r =
            addGeometryList K rest (addGeometry K g2 r) from by
          simp [addGeometryList]]
      rw [addGeometry_spec K g2 r, addGeometryList_spec K rest _]
      simp [flatPolysetsL, flatNefsL, List.append_assoc]
termination_by sizeOf cs

end

/-- Helper: every non-empty polyhedron in the flattened list really is
non-empty. -/
theorem flatNefs_nonempty (g : Geometry) :
    ∀ n ∈ flatNefs g, n.isEmpty = false := by
  have main : ∀ m : Nat, ∀ g : Geometry, sizeOf g ≤ m →
      ∀ n ∈ flatNefs g, n.isEmpty = false := by
    intro m
    induction m with
    | zero =>
        intro g hg
        cases g <;> simp_all [flatNefs]
    | succ m ih =>
        intro g hg
        cases g with
        | glist cs =>
            induction cs with
            | nil => simp [flatNefs, flatNefsL]
            | cons c rest ihc =>
                intro n hn
                obtain ⟨k, g2⟩ := c
                rw [show flatNefs (Geometry.glist ((k, g2) :: rest)) =
                      flatNefs g2 ++ flatNefsL rest from by
                    simp [flatNefs, flatNefsL]] at hn
                rcases List.mem_append.mp hn with h1 | h2
                · exact ih g2 (by simp at hg; omega) n h1
                · refine ihc ?_ n ?_
                  · simp at hg ⊢; omega
                  · simpa [flatNefs, flatNefsL] using h2
        | nef n0 =>
            cases hE : n0.isEmpty <;> simp_all [flatNefs]
        | polySet ps => simp [flatNefs]
        | polygon2d p => simp [flatNefs]
        | unknown => simp [flatNefs]
  exact main (sizeOf g) g (Nat.le_refl _)

/-- Helper: getPolyhedrons never changes the retained lists, the recorded
flag, the colorscheme, the colormap or the segment state. -/
theorem getPolyhedrons_frame (flag : Bool) (r : Renderer) :
    (getPolyhedrons flag r).1.nefPolyhedrons = r.nefPolyhedrons ∧
    (getPolyhedrons flag r).1.last_render_state = r.last_render_state ∧
    (getPolyhedrons flag r).1.colorscheme = r.colorscheme ∧
    (getPolyhedrons flag r).1.polysets = r.polysets := by
  simp only [getPolyhedrons, buildPolyhedrons]
  split <;> simp

/-- Helper: after a rebuild the cache is the image of the retained list. -/
theorem getPolyhedrons_rebuild (flag : Bool) (r : Renderer)
    (h : (getPolyhedrons flag r).2 = true) :
    (getPolyhedrons flag r).1.polyhedrons =
      r.nefPolyhedrons.map (mkOGL flag r.colorscheme) := by
  unfold getPolyhedrons at h ⊢
  by_cases hc : rebuildCond flag r = true
  · simp [hc, buildPolyhedrons]
  · simp [hc] at h

/-- Helper: the rebuild condition, spelled as a proposition. -/
theorem rebuildCond_iff (flag : Bool) (r : Renderer) :
    rebuildCond flag r = true ↔
      (r.nefPolyhedrons ≠ [] ∧
        (r.polyhedrons = [] ∨ flag ≠ r.last_render_state)) := by
  simp [rebuildCond, List.isEmpty_iff, Bool.or_eq_true, bne]

/-- Helper: folding the polyhedron pass over a state changes nothing. -/
theorem applyTrace_polyhedronTrace (s : GLState) (sf se : Bool)
    (cache : List OGLPolyhedron) :
    applyTrace s (polyhedronTrace sf se cache) = s := by
  induction cache generalizing s with
  | nil => rfl
  | cons p rest ih => simpa [polyhedronTrace, applyTrace] using ih s

/-- Helper: applyTrace distributes over list append. -/
theorem applyTrace_append (s : GLState) (a b : List GLCmd) :
    applyTrace s (a ++ b) = applyTrace (applyTrace s a) b := by
  simp [applyTrace, List.foldl_append]

/-- Helper: a restore-safe command preserves the point size and never
disables a client array. -/
theorem applyCmd_safe (s : GLState) (c : GLCmd) (h : cmdSegSafe c = true) :
    (applyCmd s c).pointS = s.pointS ∧
    (s.clVertex = true → (applyCmd s c).clVertex = true) ∧
    (s.clNormal = true → (applyCmd s c).clNormal = true) ∧
    (s.clColor = true → (applyCmd s c).clColor = true) := by
  cases c <;>
    first
      | (rename_i a; cases a <;> simp_all [applyCmd, cmdSegSafe])
      | simp_all [applyCmd, cmdSegSafe]

/-- Helper: a restore-safe trace preserves the point size and never
disables a client array. -/
theorem applyTrace_safe (cmds : List GLCmd)
    (h : cmds.all cmdSegSafe = true) (s : GLState) :
    (applyTrace s cmds).pointS = s.pointS ∧
    (s.clVertex = true → (applyTrace s cmds).clVertex = true) ∧
    (s.clNormal = true → (applyTrace s cmds).clNormal = true) ∧
    (s.clColor = true → (applyTrace s cmds).clColor = true) := by
  induction cmds generalizing s with
  | nil => simp [applyTrace]
  | cons c cs ih =>
      rw [List.all_cons, Bool.and_eq_true] at h
      obtain ⟨h1, h2⟩ := h
      have hc := applyCmd_safe s c h1
      have ht := ih h2 (applyCmd s c)
      have hstep : applyTrace s (c :: cs) = applyTrace (applyCmd s c) cs := rfl
      rw [hstep]
      exact ⟨ht.1.trans hc.1,
        fun hv => ht.2.1 (hc.2.1 hv),
        fun hn => ht.2.2.1 (hc.2.2.1 hn),
        fun hcl => ht.2.2.2 (hc.2.2.2 hcl)⟩

/-- Helper: all elements of a concatMap satisfy p when each block does. -/
theorem concatMap_all {α β : Type} {f : α → List β} {p : β → Bool}
    {l : List α} (h : ∀ a ∈ l, (f a).all p = true) :
    (concatMap f l).all p = true := by
  induction l with
  | nil => rfl
  | cons a rest ih =>
      simp only [concatMap, List.all_append, Bool.and_eq_true]
      exact ⟨h a (List.mem_cons_self a rest),
        ih (fun x hx => h x (List.mem_cons_of_mem a hx))⟩

/-- Helper: the draw commands of any segment kind are restore-safe. -/
theorem segDrawCmds_safe (k : SegKind) :
    (segDrawCmds k).all cmdSegSafe = true := by
  cases k <;> rfl

/-- Helper: the trace of a well-formed segment is restore-safe. -/
theorem vsTrace_safe (v : VertexState) (h : vsOK v = true) :
    (vsTrace v).all cmdSegSafe = true := by
  rw [vsOK, Bool.and_eq_true] at h
  simp only [vsTrace, List.all_append, Bool.and_eq_true]
  exact ⟨⟨h.1, segDrawCmds_safe v.kind⟩, h.2⟩

/-- Helper: the segments built for one polygon set are well formed. -/
theorem psSegStates_ok (r : Renderer) (ps : PolySet) :
    segStatesOK (psSegStates r ps) = true := by
  rw [psSegStates]
  split <;> rfl

/-- Helper: createPolysets only builds well-formed segments. -/
theorem createPolysets_ok (newBuf : Nat) (r : Renderer) :
    segStatesOK (createPolysets newBuf r).polyset_states = true := by
  rw [createPolysets]
  exact concatMap_all (fun ps _ => psSegStates_ok r ps)

/-- Helper: the lazily built segment list at the top of the buffered path
is well formed whenever the existing one is. -/
theorem bufferedRenderer_ok (newBuf : Nat) (r : Renderer)
    (h : segStatesOK r.polyset_states = true) :
    segStatesOK (bufferedRenderer newBuf r).polyset_states = true := by
  rw [bufferedRenderer]
  split
  · exact createPolysets_ok newBuf r
  · exact h

/-- Helper: the whole segment pass trace is restore-safe for well-formed
segment lists. -/
theorem segPass_safe (sts : List VertexState) (h : segStatesOK sts = true) :
    (concatMap vsTrace sts).all cmdSegSafe = true := by
  refine concatMap_all (fun v hv => vsTrace_safe v ?_)
  rw [segStatesOK] at h
  exact List.all_eq_true.mp h v hv

/-- Helper: applying the restore commands computed from snapshot s to any
state t that still has every client array enabled that s had enabled yields
the snapshotted point size, line width and array flags. -/
theorem applyTrace_restore (t s : GLState)
    (hv : s.clVertex = true → t.clVertex = true)
    (hn : s.clNormal = true → t.clNormal = true)
    (hc : s.clColor = true → t.clColor = true) :
    (applyTrace t (restoreCmds s)).pointS = s.pointS ∧
    (applyTrace t (restoreCmds s)).lineW = s.lineW ∧
    (applyTrace t (restoreCmds s)).clVertex = s.clVertex ∧
    (applyTrace t (restoreCmds s)).clNormal = s.clNormal ∧
    (applyTrace t (restoreCmds s)).clColor = s.clColor := by
  cases hsv : s.clVertex <;> cases hsn : s.clNormal <;> cases hsc : s.clColor <;>
    simp_all [restoreCmds, applyTrace, applyCmd]

/-- Helper: the bind, segment pass, unbind, restore sandwich of the
buffered path restores point size, line width and the client array flags
exactly, for any well-formed segment list and any prior state. -/
theorem segPassRestore (v : Nat) (sts : List VertexState) (s : GLState)
    (h : segStatesOK sts = true) :
    (applyTrace s ([GLCmd.bindBuffer v] ++ concatMap vsTrace sts ++
      [GLCmd.bindBuffer 0] ++ restoreCmds s)).pointS = s.pointS ∧
    (applyTrace s ([GLCmd.bindBuffer v] ++ concatMap vsTrace sts ++
      [GLCmd.bindBuffer 0] ++ restoreCmds s)).lineW = s.lineW ∧
    (applyTrace s ([GLCmd.bindBuffer v] ++ concatMap vsTrace sts ++
      [GLCmd.bindBuffer 0] ++ restoreCmds s)).clVertex = s.clVertex ∧
    (applyTrace s ([GLCmd.bindBuffer v] ++ concatMap vsTrace sts ++
      [GLCmd.bindBuffer 0] ++ restoreCmds s)).clNormal = s.clNormal ∧
    (applyTrace s ([GLCmd.bindBuffer v] ++ concatMap vsTrace sts ++
      [GLCmd.bindBuffer 0] ++ restoreCmds s)).clColor = s.clColor := by
  have hsegs := segPass_safe sts h
  have hsafe := applyTrace_safe _ hsegs (applyCmd s (GLCmd.bindBuffer v))
  have hsplit : applyTrace s ([GLCmd.bindBuffer v] ++ concatMap vsTrace sts ++
      [GLCmd.bindBuffer 0] ++ restoreCmds s) =
      applyTrace
        (applyCmd (applyTrace (applyCmd s (GLCmd.bindBuffer v))
          (concatMap vsTrace sts)) (GLCmd.bindBuffer 0))
        (restoreCmds s) := by
    rw [applyTrace_append, applyTrace_append, applyTrace_append]
    rfl
  rw [hsplit]
  have hres := applyTrace_restore
    (applyCmd (applyTrace (applyCmd s (GLCmd.bindBuffer v))
      (concatMap vsTrace sts)) (GLCmd.bindBuffer 0)) s
    (fun hv => hsafe.2.1 hv) (fun hn => hsafe.2.2.1 hn)
    (fun hc => hsafe.2.2.2 hc)
  refine ⟨?_, hres.2.1, hres.2.2.1, hres.2.2.2.1, hres.2.2.2.2⟩
  rw [hres.1]

/-- Helper: createPolysets writes only polyset_states and polyset_vbo. -/
theorem createPolysets_frame (nb : Nat) (r : Renderer) :
    (createPolysets nb r).polysets = r.polysets ∧
    (createPolysets nb r).nefPolyhedrons = r.nefPolyhedrons ∧
    (createPolysets nb r).polyhedrons = r.polyhedrons ∧
    (createPolysets nb r).last_render_state = r.last_render_state ∧
    (createPolysets nb r).colorscheme = r.colorscheme := by
  exact ⟨rfl, rfl, rfl, rfl, rfl⟩

/-- Helper: same frame condition for the lazy segment build. -/
theorem bufferedRenderer_frame (nb : Nat) (r : Renderer) :
    (bufferedRenderer nb r).polysets = r.polysets ∧
    (bufferedRenderer nb r).nefPolyhedrons = r.nefPolyhedrons ∧
    (bufferedRenderer nb r).polyhedrons = r.polyhedrons ∧
    (bufferedRenderer nb r).last_render_state = r.last_render_state ∧
    (bufferedRenderer nb r).colorscheme = r.colorscheme := by
  rw [bufferedRenderer]
  split
  · exact createPolysets_frame nb r
  · exact ⟨rfl, rfl, rfl, rfl, rfl⟩

/-- Helper: one draw call on a renderer with no retained polyhedra and an
empty cache keeps both lists empty and does not touch last_render_state. -/
theorem drawStep_frame_empty (r : Renderer) (a : DrawArgs)
    (h1 : r.nefPolyhedrons = []) (h2 : r.polyhedrons = []) :
    (drawStep r a).nefPolyhedrons = [] ∧
    (drawStep r a).polyhedrons = [] ∧
    (drawStep r a).last_render_state = r.last_render_state := by
  rw [drawStep, draw]
  have hbf := bufferedRenderer_frame a.nb r
  have hr1nef : (if a.flag then bufferedRenderer a.nb r else r).nefPolyhedrons
      = [] := by
    split
    · rw [hbf.2.1]; exact h1
    · exact h1
  have hr1cache : (if a.flag then bufferedRenderer a.nb r else r).polyhedrons
      = [] := by
    split
    · rw [hbf.2.2.1]; exact h2
    · exact h2
  have hr1last : (if a.flag then bufferedRenderer a.nb r else r).last_render_state
      = r.last_render_state := by
    split
    · exact hbf.2.2.2.1
    · rfl
  have hcond : rebuildCond a.flag
      (if a.flag then bufferedRenderer a.nb r else r) = false := by
    rw [rebuildCond, hr1nef]
    rfl
  have hget : getPolyhedrons a.flag
      (if a.flag then bufferedRenderer a.nb r else r) =
      ((if a.flag then bufferedRenderer a.nb r else r), false) := by
    rw [getPolyhedrons, hcond]
    simp
  refine ⟨?_, ?_, ?_⟩ <;>
    simp only [hget, hr1cache, List.isEmpty_nil, if_true]
  · exact hr1nef
  · exact hr1last

/-- Helper: a whole sequence of draw calls on such a renderer keeps the
lists empty and last_render_state untouched. -/
theorem drawSeqFold_frame (calls : List DrawArgs) (r : Renderer)
    (h1 : r.nefPolyhedrons = []) (h2 : r.polyhedrons = []) :
    (drawSeqFold calls r).nefPolyhedrons = [] ∧
    (drawSeqFold calls r).polyhedrons = [] ∧
    (drawSeqFold calls r).last_render_state = r.last_render_state := by
  induction calls generalizing r with
  | nil => exact ⟨h1, h2, rfl⟩
  | cons a rest ih =>
      have hs := drawStep_frame_empty r a h1 h2
      have hrest := ih (drawStep r a) hs.1 hs.2.1
      exact ⟨hrest.1, hrest.2.1, hrest.2.2.trans hs.2.2⟩

/-- Claim C1: getPolyhedrons rebuilds the cache exactly when the retained
Nef list is non-empty and either the cache is empty or the current flag
value differs from the recorded last-build value; in every other case it
returns the renderer and its cache unchanged. -/
theorem claim1_getPolyhedrons_rebuild_iff (flag : Bool) (r : Renderer) :
    ((getPolyhedrons flag r).2 = true ↔
      (r.nefPolyhedrons ≠ [] ∧
        (r.polyhedrons = [] ∨ flag ≠ r.last_render_state))) ∧
    ((getPolyhedrons flag r).2 = false → getPolyhedrons flag r = (r, false)) := by
  have hb : (getPolyhedrons flag r).2 = rebuildCond flag r := by
    rw [getPolyhedrons]
    split <;> simp_all
  constructor
  · rw [hb]
    exact rebuildCond_iff flag r
  · intro h0
    rw [hb] at h0
    rw [getPolyhedrons, h0]
    simp

/-- Claim C1 witness: on the concrete renderer rEx (one retained Nef, empty
cache, recorded flag false) a call under flag true rebuilds, and on
rExCached (cache built under flag false) a call under flag false leaves
everything unchanged. -/
theorem claim1_witness :
    (getPolyhedrons true rEx).2 = true ∧
    getPolyhedrons false rExCached = (rExCached, false) :=
  ⟨(claim1_getPolyhedrons_rebuild_iff true rEx).1.mpr
      (by constructor
          · intro hcon
            exact absurd hcon (by decide)
          · exact Or.inl rfl),
   (claim1_getPolyhedrons_rebuild_iff false rExCached).2 (by rfl)⟩

/-- Claim C2 counterexample: with the retained list non-empty, the same
flag value at both calls and no setColorScheme in between, two consecutive
getPolyhedrons calls both rebuild, because buildPolyhedrons does not record
the flag value used for the build (only the draw loop does): starting from
rEx (recorded value false) under current flag true, the first call rebuilds
and so does the second, contradicting the claimed at-most-one rebuild. -/
theorem claim2_counterexample :
    (getPolyhedrons true rEx).2 = true ∧
    (getPolyhedrons true (getPolyhedrons true rEx).1).2 = true := by
  constructor <;> rfl

/-- Claim C2 (amended): the flag value is recorded only by the draw loop,
not by buildPolyhedrons, so idempotence needs the current flag to equal the
recorded value: under that proviso a second getPolyhedrons call with no
intervening invalidation never rebuilds and returns the same cached list,
and toggling the flag between the two calls (with a non-empty retained
list) makes the second call rebuild exactly once, producing a cache whose
size equals the retained-polyhedron count. -/
theorem claim2_amended_idempotence (flag : Bool) (r : Renderer)
    (h : flag = r.last_render_state) :
    ((getPolyhedrons flag (getPolyhedrons flag r).1).2 = false) ∧
    ((getPolyhedrons flag (getPolyhedrons flag r).1).1.polyhedrons =
      (getPolyhedrons flag r).1.polyhedrons) ∧
    (r.nefPolyhedrons ≠ [] →
      (getPolyhedrons (!flag) (getPolyhedrons flag r).1).2 = true ∧
      (getPolyhedrons (!flag)
        (getPolyhedrons flag r).1).1.polyhedrons.length =
          r.nefPolyhedrons.length) := by
  by_cases hc : rebuildCond flag r = true
  · have h1 : getPolyhedrons flag r = (buildPolyhedrons flag r, true) := by
      rw [getPolyhedrons, if_pos hc]
    have hnef : r.nefPolyhedrons ≠ [] := ((rebuildCond_iff flag r).mp hc).1
    have hcne : (buildPolyhedrons flag r).polyhedrons ≠ [] := by
      show r.nefPolyhedrons.map (mkOGL flag r.colorscheme) ≠ []
      simpa using hnef
    have hcond2 : rebuildCond flag (buildPolyhedrons flag r) = false := by
      show (!r.nefPolyhedrons.isEmpty &&
        ((r.nefPolyhedrons.map (mkOGL flag r.colorscheme)).isEmpty ||
          flag != r.last_render_state)) = false
      rw [← h]
      simp [List.isEmpty_iff, hcne.symm]
    have h2 : getPolyhedrons flag (buildPolyhedrons flag r) =
        (buildPolyhedrons flag r, false) := by
      rw [getPolyhedrons, hcond2]
      simp
    refine ⟨by rw [h1, h2], by rw [h1, h2], fun hne => ?_⟩
    have hcond3 : rebuildCond (!flag) (buildPolyhedrons flag r) = true := by
      show (!r.nefPolyhedrons.isEmpty &&
        ((r.nefPolyhedrons.map (mkOGL flag r.colorscheme)).isEmpty ||
          (!flag) != r.last_render_state)) = true
      rw [← h]
      have hbne : ((!flag) != flag) = true := by cases flag <;> rfl
      simp [List.isEmpty_iff, hbne, hne]
    have h3 : getPolyhedrons (!flag) (buildPolyhedrons flag r) =
        (buildPolyhedrons (!flag) (buildPolyhedrons flag r), true) := by
      rw [getPolyhedrons, if_pos hcond3]
    rw [h1, h3]
    constructor
    · rfl
    · show (r.nefPolyhedrons.map (mkOGL (!flag) r.colorscheme)).length =
        r.nefPolyhedrons.length
      simp
  · have h1 : getPolyhedrons flag r = (r, false) := by
      rw [getPolyhedrons]
      simp [hc]
    refine ⟨?_, ?_, fun hne => ?_⟩
    · rw [h1]
      show (getPolyhedrons flag r).2 = false
      rw [getPolyhedrons]
      simp [hc]
    · rw [h1]
      show (getPolyhedrons flag r).1.polyhedrons = r.polyhedrons
      rw [h1]
    have hcond3 : rebuildCond (!flag) r = true := by
      rw [rebuildCond, ← h]
      have hbne : ((!flag) != flag) = true := by cases flag <;> rfl
      simp [List.isEmpty_iff, hbne, hne]
    have h3 : getPolyhedrons (!flag) r = (buildPolyhedrons (!flag) r, true) := by
      rw [getPolyhedrons, if_pos hcond3]
    rw [h1, h3]
    constructor
    · rfl
    · show (r.nefPolyhedrons.map (mkOGL (!flag) r.colorscheme)).length =
        r.nefPolyhedrons.length
      simp

/-- Claim C2 witness: on rEx with the current flag equal to the recorded
value false, the second of two getPolyhedrons calls does not rebuild, and
after toggling the flag to true the next call rebuilds with a cache of the
size of the retained list. -/
theorem claim2_amended_witness :
    (getPolyhedrons false (getPolyhedrons false rEx).1).2 = false ∧
    (getPolyhedrons true (getPolyhedrons false rEx).1).2 = true ∧
    (getPolyhedrons true
      (getPolyhedrons false rEx).1).1.polyhedrons.length =
        rEx.nefPolyhedrons.length := by
  have h := claim2_amended_idempotence false rEx rfl
  have h3 := h.2.2 (by decide)
  exact ⟨h.1, h3.1, h3.2⟩

/-- Claim C3: addGeometry retains exactly the depth-first flattening of the
composite input: the tessellated leaf polygon sets are appended to the
retained polygon-set list and the non-empty boundary polyhedra to the
retained polyhedron list, in child order, and no other field changes;
moreover every newly retained polyhedron is non-empty. -/
theorem claim3_addGeometry_flatten (K : Kernel) (g : Geometry) (r : Renderer) :
    addGeometry K g r =
      { r with polysets := r.polysets ++ flatPolysets K g,
               nefPolyhedrons := r.nefPolyhedrons ++ flatNefs g } ∧
    (∀ n ∈ (addGeometry K g r).nefPolyhedrons,
      n ∈ r.nefPolyhedrons ∨ n.isEmpty = false) := by
  refine ⟨addGeometry_spec K g r, fun n hn => ?_⟩
  rw [addGeometry_spec K g r] at hn
  rcases List.mem_append.mp hn with h1 | h2
  · exact Or.inl h1
  · exact Or.inr (flatNefs_nonempty g n h2)

/-- Claim C3 witness: the flattening law evaluated on the concrete nested
composite gEx over the renderer rEx, with the non-emptiness part discharged
at the concrete retained polyhedron nefEx. -/
theorem claim3_witness :
    addGeometry Ktriv gEx rEx =
      { rEx with polysets := rEx.polysets ++ flatPolysets Ktriv gEx,
                 nefPolyhedrons := rEx.nefPolyhedrons ++ flatNefs gEx } ∧
    (nefEx ∈ rEx.nefPolyhedrons ∨ nefEx.isEmpty = false) :=
  ⟨(claim3_addGeometry_flatten Ktriv gEx rEx).1,
   (claim3_addGeometry_flatten Ktriv gEx rEx).2 nefEx
     (by
       rw [addGeometry_spec]
       simp [rEx, gEx, flatNefs, flatNefsL, nefEx])⟩

/-- Claim C4: for every 2D retained polygon set both rendering paths emit,
in exactly this order: disable lighting, draw the faces under the 2D face
color, disable the depth test, set line width 2, draw the edges under the
2D edge color, re-enable the depth test.  The legacy path interleaves the
face color command with the immediate-mode face loop (whose commands are
all face-drawing commands), the buffered path bakes each color into its
face or edge segment and brackets them with the same state commands (plus
the client array enables of the segment layout). -/
theorem claim4_draw2d_order (r : Renderer) (ps : PolySet) (h : ps.dim = 2) :
    legacyPolysetTrace r ps =
      [GLCmd.disableLighting, GLCmd.setColor (colorOf r .cgalFace2d)] ++
        legacyFaceLoop ps ++
        [GLCmd.disableDepthTest, GLCmd.setLineWidth 2,
         GLCmd.setColor (colorOf r .cgalEdge2d), GLCmd.renderEdges2D ps,
         GLCmd.enableDepthTest] ∧
    (legacyFaceLoop ps).all isFaceCmd = true ∧
    concatMap vsTrace (psSegStates r ps) =
      [GLCmd.disableLighting,
       GLCmd.enableClient .vertexArr, GLCmd.enableClient .colorArr,
       GLCmd.drawFace2D (colorOf r .cgalFace2d) ps,
       GLCmd.disableDepthTest, GLCmd.setLineWidth 2,
       GLCmd.enableClient .vertexArr, GLCmd.enableClient .colorArr,
       GLCmd.drawEdge2D (colorOf r .cgalEdge2d) ps,
       GLCmd.enableDepthTest] := by
  have h2 : (ps.dim == 2) = true := by simp [h]
  refine ⟨?_, ?_, ?_⟩
  · rw [legacyPolysetTrace, if_pos h2]
  · rw [legacyFaceLoop]
    refine concatMap_all (fun poly _ => ?_)
    simp only [List.all_append, List.all_map, Bool.and_eq_true,
      List.all_eq_true]
    refine ⟨⟨fun x hx => ?_, fun x hx => ?_⟩, fun x hx => ?_⟩
    · simp only [List.mem_singleton] at hx
      subst hx
      rfl
    · simp only [List.mem_map] at hx
      obtain ⟨p, hp, hpx⟩ := hx
      subst hpx
      rfl
    · simp only [List.mem_singleton] at hx
      subst hx
      rfl
  · rw [psSegStates, if_pos h2]
    rfl

/-- Claim C4 witness: the two trace shapes evaluated on the concrete
renderer rEx and the concrete convex square psSquare. -/
theorem claim4_witness :
    legacyPolysetTrace rEx psSquare =
      [GLCmd.disableLighting, GLCmd.setColor (colorOf rEx .cgalFace2d)] ++
        legacyFaceLoop psSquare ++
        [GLCmd.disableDepthTest, GLCmd.setLineWidth 2,
         GLCmd.setColor (colorOf rEx .cgalEdge2d),
         GLCmd.renderEdges2D psSquare, GLCmd.enableDepthTest] ∧
    (legacyFaceLoop psSquare).all isFaceCmd = true ∧
    concatMap vsTrace (psSegStates rEx psSquare) =
      [GLCmd.disableLighting,
       GLCmd.enableClient .vertexArr, GLCmd.enableClient .colorArr,
       GLCmd.drawFace2D (colorOf rEx .cgalFace2d) psSquare,
       GLCmd.disableDepthTest, GLCmd.setLineWidth 2,
       GLCmd.enableClient .vertexArr, GLCmd.enableClient .colorArr,
       GLCmd.drawEdge2D (colorOf rEx .cgalEdge2d) psSquare,
       GLCmd.enableDepthTest] :=
  claim4_draw2d_order rEx psSquare rfl

/-- Claim C5: in the buffered path, draw snapshots the point size, the line
width and the enablement of the vertex, normal and color client arrays
before the segment pass, and after unbinding the buffer restores all of
them exactly, so the state after draw returns agrees with the state before
the segment pass on each of these items, for any prior state and any
well-formed segment list (in particular the one createPolysets builds). -/
theorem claim5_buffered_state_restored (sf se : Bool) (nb : Nat)
    (r : Renderer) (s : GLState)
    (h : segStatesOK r.polyset_states = true) :
    (applyTrace s (draw true sf se nb r s).2).pointS = s.pointS ∧
    (applyTrace s (draw true sf se nb r s).2).lineW = s.lineW ∧
    (applyTrace s (draw true sf se nb r s).2).clVertex = s.clVertex ∧
    (applyTrace s (draw true sf se nb r s).2).clNormal = s.clNormal ∧
    (applyTrace s (draw true sf se nb r s).2).clColor = s.clColor := by
  have hok := bufferedRenderer_ok nb r h
  have hdraw : (draw true sf se nb r s).2 =
      bufferedTrace nb r s ++
        polyhedronTrace sf se
          ((getPolyhedrons true (bufferedRenderer nb r)).1.polyhedrons) := by
    simp [draw]
  rw [hdraw, applyTrace_append, applyTrace_polyhedronTrace, bufferedTrace]
  exact segPassRestore (bufferedRenderer nb r).polyset_vbo
    (bufferedRenderer nb r).polyset_states s hok

/-- Claim C5 witness: the restoration equalities evaluated on the concrete
renderer rSquare (empty segment list, so the segments are built inside the
call) and the concrete OpenGL state sEx. -/
theorem claim5_witness :
    (applyTrace sEx (draw true false false 1 rSquare sEx).2).pointS =
      sEx.pointS ∧
    (applyTrace sEx (draw true false false 1 rSquare sEx).2).lineW =
      sEx.lineW ∧
    (applyTrace sEx (draw true false false 1 rSquare sEx).2).clVertex =
      sEx.clVertex ∧
    (applyTrace sEx (draw true false false 1 rSquare sEx).2).clNormal =
      sEx.clNormal ∧
    (applyTrace sEx (draw true false false 1 rSquare sEx).2).clColor =
      sEx.clColor :=
  claim5_buffered_state_restored false false 1 rSquare sEx rfl

/-- Claim C6: setColorScheme clears the polyhedron cache unconditionally
(in particular also when the scheme is the one already active, since the
scheme argument is arbitrary here), records the scheme, rewrites exactly
the colormap entries for the 2D face color and the 2D edge color, and
leaves every other colormap entry and every other renderer field
unchanged. -/
theorem claim6_setColorScheme (K : Kernel) (cs : ColorScheme) (r : Renderer) :
    (setColorScheme K cs r).polyhedrons = [] ∧
    (setColorScheme K cs r).colormap .cgalFace2d =
      some (K.getColor cs .face2d) ∧
    (setColorScheme K cs r).colormap .cgalEdge2d =
      some (K.getColor cs .edge2d) ∧
    (∀ m : ColorMode, m ≠ .cgalFace2d → m ≠ .cgalEdge2d →
      (setColorScheme K cs r).colormap m = r.colormap m) ∧
    (setColorScheme K cs r).colorscheme = cs ∧
    (setColorScheme K cs r).polysets = r.polysets ∧
    (setColorScheme K cs r).nefPolyhedrons = r.nefPolyhedrons ∧
    (setColorScheme K cs r).last_render_state = r.last_render_state ∧
    (setColorScheme K cs r).polyset_states = r.polyset_states := by
  refine ⟨rfl, ?_, ?_, ?_, rfl, rfl, rfl, rfl, rfl⟩
  · simp [setColorScheme, updateMap]
  · simp [setColorScheme, updateMap]
  · intro m hm1 hm2
    simp [setColorScheme, updateMap, hm1, hm2]

/-- Claim C6 witness: setColorScheme evaluated on rExCached with the scheme
that is already active (rExCached.colorscheme is 3): the non-empty cache
still empties, the two named entries change, and the material entry (a
representative other entry, discharged concretely) does not. -/
theorem claim6_witness :
    (setColorScheme Ktriv 3 rExCached).polyhedrons = [] ∧
    (setColorScheme Ktriv 3 rExCached).colormap .cgalFace2d =
      some (Ktriv.getColor 3 .face2d) ∧
    (setColorScheme Ktriv 3 rExCached).colormap .cgalEdge2d =
      some (Ktriv.getColor 3 .edge2d) ∧
    (setColorScheme Ktriv 3 rExCached).colormap .material =
      rExCached.colormap .material :=
  ⟨(claim6_setColorScheme Ktriv 3 rExCached).1,
   (claim6_setColorScheme Ktriv 3 rExCached).2.1,
   (claim6_setColorScheme Ktriv 3 rExCached).2.2.1,
   (claim6_setColorScheme Ktriv 3 rExCached).2.2.2.1 .material
     (by decide) (by decide)⟩

/-- Claim C7: in both rendering paths the polyhedron pass of draw walks the
cache returned by getPolyhedrons and draws every entry with the boundary
style when showfaces holds and the skeleton style otherwise, passing
edges-and-faces mode exactly when showfaces and showedges both hold. -/
theorem claim7_polyhedron_styles (flag sf se : Bool) (nb : Nat)
    (r : Renderer) (s : GLState) :
    (draw flag sf se nb r s).2 =
      (if flag then bufferedTrace nb r s else legacyTrace r) ++
        ((getPolyhedrons flag
            (if flag then bufferedRenderer nb r else r)).1.polyhedrons).map
          (fun _ => GLCmd.drawPolyhedron
            (if sf then .sncBoundary else .sncSkeleton) (sf && se)) := by
  rw [draw, polyhedronTrace]

/-- Claim C8: getBoundingBox is the union of the boxes of every cached
polyhedron returned by getPolyhedrons (so the cache is built first exactly
when the rebuild condition holds) and of the bounds of every retained
polygon set; with nothing retained it is the empty box, and with exactly
one retained polygon set and no polyhedra it equals that polygon set's own
bounding box. -/
theorem claim8_getBoundingBox (K : Kernel) (flag : Bool) (r : Renderer) :
    getBoundingBox K flag r =
      unionBBoxes
        (((getPolyhedrons flag r).1.polyhedrons).map
            (fun p => some (K.oglBound p)) ++
          r.polysets.map K.psBound) ∧
    (r.nefPolyhedrons = [] → r.polyhedrons = [] → r.polysets = [] →
      getBoundingBox K flag r = none) ∧
    (∀ ps, r.nefPolyhedrons = [] → r.polyhedrons = [] →
      r.polysets = [ps] → getBoundingBox K flag r = K.psBound ps) := by
  have hcache : r.nefPolyhedrons = [] → r.polyhedrons = [] →
      (getPolyhedrons flag r).1.polyhedrons = [] := by
    intro h1 h2
    rw [getPolyhedrons, rebuildCond, h1]
    simp [h2]
  refine ⟨?_, ?_, ?_⟩
  · rw [getBoundingBox, unionBBoxes, List.foldl_append, List.foldl_map,
      List.foldl_map]
  · intro h1 h2 h3
    rw [getBoundingBox, hcache h1 h2, h3]
    rfl
  · intro ps h1 h2 h3
    rw [getBoundingBox, hcache h1 h2, h3]
    show extendBB none (K.psBound ps) = K.psBound ps
    cases hb : K.psBound ps <;> rfl

/-- Claim C8 witness: the bounding box of the renderer rCube, retaining
exactly one 3D polygon set and no polyhedra, equals the bounding box of
that polygon set, and the renderer retaining nothing yields the empty
box. -/
theorem claim8_witness :
    getBoundingBox Ktriv false rCube = Ktriv.psBound psCube ∧
    getBoundingBox Ktriv false rEmpty = none :=
  ⟨(claim8_getBoundingBox Ktriv false rCube).2.2 psCube rfl rfl rfl,
   (claim8_getBoundingBox Ktriv false rEmpty).2.1 rfl rfl rfl⟩

/-- Claim C9: createPolysets rebuilds the segment list from scratch (the
old segment list never contributes), so running it twice in succession
leaves the segment list equal to the result of running it once. -/
theorem claim9_createPolysets_idempotent (nb1 nb2 : Nat) (r : Renderer)
    (sts : List VertexState) :
    (createPolysets nb2 (createPolysets nb1 r)).polyset_states =
      (createPolysets nb1 r).polyset_states ∧
    (createPolysets nb1
        { r with polyset_states := sts }).polyset_states =
      (createPolysets nb1 r).polyset_states :=
  ⟨rfl, rfl⟩

/-- Claim C10: last_render_state is written only by the loop over the
cached polyhedra inside draw, so a renderer constructed with no non-empty
boundary polyhedra keeps the flag value captured at construction through
any sequence of draw calls with any flag values, and neither
setColorScheme, getPolyhedrons nor createPolysets ever touches it. -/
theorem claim10_last_render_state_frozen (K : Kernel) (flag : Bool)
    (cs0 : ColorScheme) (cm0 : ColorMode → Option Color) (g : Geometry)
    (calls : List DrawArgs)
    (h : (mkRenderer K flag cs0 cm0 g).nefPolyhedrons = []) :
    (mkRenderer K flag cs0 cm0 g).last_render_state = flag ∧
    (drawSeqFold calls (mkRenderer K flag cs0 cm0 g)).last_render_state =
      flag ∧
    (∀ cs1, (setColorScheme K cs1
      (mkRenderer K flag cs0 cm0 g)).last_render_state = flag) ∧
    (∀ fl2, (getPolyhedrons fl2
      (mkRenderer K flag cs0 cm0 g)).1.last_render_state = flag) ∧
    (∀ nb, (createPolysets nb
      (mkRenderer K flag cs0 cm0 g)).last_render_state = flag) := by
  have hmk := addGeometry_spec K g
    { polysets := [], nefPolyhedrons := [], polyhedrons := [],
      last_render_state := flag, polyset_states := [], polyset_vbo := 0,
      colorscheme := cs0, colormap := cm0 }
  have hlast : (mkRenderer K flag cs0 cm0 g).last_render_state = flag := by
    rw [mkRenderer, hmk]
  have hcache : (mkRenderer K flag cs0 cm0 g).polyhedrons = [] := by
    rw [mkRenderer, hmk]
  refine ⟨hlast, ?_, fun cs1 => hlast, fun fl2 => ?_, fun nb => hlast⟩
  · rw [(drawSeqFold_frame calls _ h hcache).2.2, hlast]
  · rw [(getPolyhedrons_frame fl2 _).2.1, hlast]

/-- Claim C10 witness: a renderer built from a composite containing only an
empty polyhedron and an unknown geometry, constructed under flag false,
still records false after a draw sequence that includes calls under flag
true. -/
theorem claim10_witness :
    (drawSeqFold
      [{ flag := true, sf := true, se := false, nb := 1, s := sEx },
       { flag := false, sf := false, se := true, nb := 2, s := sEx },
       { flag := true, sf := true, se := true, nb := 3, s := sEx }]
      (mkRenderer Ktriv false 3 cmEx
        (.glist [(0, .nef { nid := 1, dim := 3, isEmpty := true }),
                 (1, .unknown)]))).last_render_state = false :=
  (claim10_last_render_state_frozen Ktriv false 3 cmEx
    (.glist [(0, .nef { nid := 1, dim := 3, isEmpty := true }),
             (1, .unknown)])
    [{ flag := true, sf := true, se := false, nb := 1, s := sEx },
     { flag := false, sf := false, se := true, nb := 2, s := sEx },
     { flag := true, sf := true, se := true, nb := 3, s := sEx }]
    (by
      rw [mkRenderer, addGeometry_spec]
      simp [flatNefs, flatNefsL])).2.1

end CGALSpec
